import Mathlib

/-!
Shallow embedding of the CourtVision query engine (src/query_engine.py) and of
the metrics/aggregation layer it calls (module `metrics`, whose source file is
not part of the repository snapshot; it is modelled from the specification).

Python strings are embedded as `List Char`; Python dynamic values flowing
through dictionaries and `ChartSpec` fields are embedded as the inductive
`PyVal`; functions that can raise are embedded in `Except Str`.
-/

set_option maxRecDepth 4000

abbrev Str := List Char

/-- ASCII whitespace recognised by Python str.strip / int(). -/
def isWsChar (c : Char) : Bool :=
  decide (c.toNat = 32 ∨ (9 ≤ c.toNat ∧ c.toNat ≤ 13))

/-- Python str.strip(): drop whitespace at both ends. -/
def pyStrip (l : Str) : Str :=
  ((l.dropWhile isWsChar).reverse.dropWhile isWsChar).reverse

/-- Python str.upper() restricted to ASCII (all inputs in this code base are ASCII). -/
def pyUpperChar (c : Char) : Char :=
  if 97 ≤ c.toNat ∧ c.toNat ≤ 122 then Char.ofNat (c.toNat - 32) else c

def pyUpper (l : Str) : Str := l.map pyUpperChar

/-- Python str.replace(old, new) for single-character old/new. -/
def pyReplace (old new : Char) (l : Str) : Str :=
  l.map (fun c => if c = old then new else c)

/-- Python str.startswith(p). -/
def pyStartsWith (p l : Str) : Bool := decide (l.take p.length = p)

/-- Python str.split(sep) for a single-character separator.
`splitOnChar c [] = [[]]`, matching Python where "".split("_") == [""]. -/
def splitOnChar (sep : Char) : Str → List Str
  | [] => [[]]
  | c :: cs =>
    if c = sep then [] :: splitOnChar sep cs
    else
      match splitOnChar sep cs with
      | [] => [[c]]
      | t :: ts => (c :: t) :: ts

def isDig (c : Char) : Bool := decide (48 ≤ c.toNat ∧ c.toNat ≤ 57)

/-- Decimal value of a digit string. -/
def digitsToNat (l : Str) : Nat := l.foldl (fun a c => a * 10 + (c.toNat - 48)) 0

def parseDigits (l : Str) : Option Nat :=
  match l with
  | [] => none
  | _ => if l.all isDig then some (digitsToNat l) else none

/-- Sign-and-digit parsing of an already-stripped token, Python-int style. -/
def pyIntParseCore : Str → Option Int
  | [] => Option.none
  | c :: cs =>
    if c = '+' then (parseDigits cs).map Int.ofNat
    else if c = '-' then (parseDigits cs).map (fun n => -(Int.ofNat n))
    else (parseDigits (c :: cs)).map Int.ofNat

/-- Python int(s) on a string: optional surrounding whitespace, optional sign,
then a nonempty digit run.  (The tokens this is applied to come from
str.split("_"), so the PEP-515 underscore rule can never fire and is omitted.) -/
def pyIntParse (l : Str) : Option Int :=
  pyIntParseCore (pyStrip l)

/-- Embedding of the Python values that flow through query dictionaries and
`ChartSpec` fields: None, strings, ints, and lists of strings. -/
inductive PyVal where
  | none : PyVal
  | str : Str → PyVal
  | int : Int → PyVal
  | strlist : List Str → PyVal
deriving DecidableEq, Repr

/-- Python truthiness for the embedded values. -/
def pyTruthy : PyVal → Bool
  | PyVal.none => false
  | PyVal.str s => decide (s ≠ [])
  | PyVal.int n => decide (n ≠ 0)
  | PyVal.strlist l => decide (l ≠ [])

def strlistRepr (l : List Str) : Str :=
  match l with
  | [] => "[]".toList
  | _ =>
    "[".toList ++ List.intercalate (", ".toList) (l.map (fun s => "\x27".toList ++ s ++ "\x27".toList))
      ++ "]".toList

/-- Python str() of an embedded value (used by f-string interpolation). -/
def pyToString : PyVal → Str
  | PyVal.none => "None".toList
  | PyVal.str s => s
  | PyVal.int n => (toString n).data
  | PyVal.strlist l => strlistRepr l

/-- Association-list lookup, embedding Python dict access (insertion order,
first match; dictionaries built from JSON never repeat keys). -/
def pyFind (k : Str) : List (Str × PyVal) → Option PyVal
  | [] => Option.none
  | (k₂, v) :: rest => if k₂ = k then some v else pyFind k rest

abbrev PyDict := List (Str × PyVal)

/-- Python d.get(k) (missing key gives None). -/
def pyGet (d : PyDict) (k : Str) : PyVal := (pyFind k d).getD PyVal.none

/-- Python d.get(k, default). -/
def pyGetD (d : PyDict) (k : Str) (dflt : PyVal) : PyVal := (pyFind k d).getD dflt

/-! ## src/query_engine.py : window normalization -/

/-- The alias table of `normalize_window` (src/query_engine.py lines 43-62). -/
def winAliases : List (Str × Str) :=
  [ ("SEASON".toList, "SEASON".toList),
    ("FULL_SEASON".toList, "SEASON".toList),
    ("YTD".toList, "SEASON".toList),
    ("LAST5".toList, "LAST_5".toList),
    ("LAST_5".toList, "LAST_5".toList),
    ("L5".toList, "LAST_5".toList),
    ("LAST_FIVE".toList, "LAST_5".toList),
    ("LAST10".toList, "LAST_10".toList),
    ("LAST_10".toList, "LAST_10".toList),
    ("L10".toList, "LAST_10".toList),
    ("LAST_TEN".toList, "LAST_10".toList),
    ("LAST20".toList, "LAST_20".toList),
    ("LAST_20".toList, "LAST_20".toList),
    ("L20".toList, "LAST_20".toList),
    ("LAST_TWENTY".toList, "LAST_20".toList) ]

def aliasFind (k : Str) : List (Str × Str) → Option Str
  | [] => Option.none
  | (k₂, v) :: rest => if k₂ = k then some v else aliasFind k rest

/-- Snapping rule for "LAST_N" (src/query_engine.py lines 65-72). -/
def snapN (n : Int) : Str :=
  if n ≤ 5 then "LAST_5".toList
  else if n ≤ 10 then "LAST_10".toList
  else "LAST_20".toList

/-- The string normalization done first by `normalize_window`:
str(raw).strip().upper().replace("-", "_").replace(" ", "_"). -/
def winNorm (s : Str) : Str :=
  pyReplace ' ' '_' (pyReplace '-' '_' (pyUpper (pyStrip s)))

/-- src/query_engine.py lines 33-79 (`normalize_window`).  The Python
`try: int(s.split("_")[1]) ... except: pass` is embedded as an Option: a
missing index-1 token or a failed int() falls through to the alias table. -/
def normalize_window (raw : PyVal) : Except Str Str :=
  match raw with
  | PyVal.none => Except.ok ("SEASON".toList)
  | _ =>
    let s := winNorm (pyToString raw)
    let snapped : Option Str :=
      if pyStartsWith ("LAST_".toList) s then
        match ((splitOnChar '_' s)[1]?).bind pyIntParse with
        | some n => some (snapN n)
        | Option.none => Option.none
      else Option.none
    match snapped with
    | some w => Except.ok w
    | Option.none =>
      match aliasFind s winAliases with
      | some w => Except.ok w
      | Option.none => Except.error ("Unsupported window: ".toList ++ pyToString raw)

/-! ## src/query_engine.py : ChartSpec and validation -/

/-- src/query_engine.py lines 83-99.  Field types follow the dataclass but,
as in Python, nothing stops a caller from storing an arbitrary value, so every
field is a `PyVal`.  Constructor argument order: chart_type, entity, window,
metric, top_n, order, x_metric, y_metric, teams. -/
structure ChartSpec where
  chart_type : PyVal
  entity : PyVal
  window : PyVal
  metric : PyVal
  top_n : PyVal
  order : PyVal
  x_metric : PyVal
  y_metric : PyVal
  teams : PyVal
deriving DecidableEq, Repr

/-- src/query_engine.py lines 17-22.  The nine supported metric names. -/
def TEAM_METRICS_ALLOWLIST : List Str :=
  [ "ORtg".toList, "DRtg".toList, "NET_RTG".toList, "PACE".toList,
    "PPG".toList, "eFG".toList, "TS".toList, "AST_RATE".toList, "TOV_RATE".toList ]

def allowVals : List PyVal := TEAM_METRICS_ALLOWLIST.map PyVal.str

def windowVals : List PyVal :=
  [ PyVal.str ("SEASON".toList), PyVal.str ("LAST_5".toList),
    PyVal.str ("LAST_10".toList), PyVal.str ("LAST_20".toList) ]

/-- The rating-family metrics {"ORtg", "DRtg", "NET_RTG", "PACE"}. -/
def ratingVals : List PyVal :=
  [ PyVal.str ("ORtg".toList), PyVal.str ("DRtg".toList),
    PyVal.str ("NET_RTG".toList), PyVal.str ("PACE".toList) ]

/-- src/query_engine.py lines 103-128 (`validate_spec`).  Python raises
ValueError; here the message is the error value.  A non-int, non-None top_n
(resp. an int teams) makes Python raise TypeError at the comparison
(resp. at len()); those branches are embedded as TypeError-labelled errors. -/
def validate_spec (s : ChartSpec) : Except Str Unit := do
  if s.entity ≠ PyVal.str ("team".toList) then
    throw ("v1 supports entity='team' only.".toList)
  if s.window ∉ windowVals then
    throw ("Unsupported window: ".toList ++ pyToString s.window)
  if s.chart_type = PyVal.str ("leaderboard".toList) then
    if ¬ pyTruthy s.metric then
      throw ("Leaderboard requires 'metric'.".toList)
    if s.metric ∉ allowVals then
      throw ("Unsupported metric: ".toList ++ pyToString s.metric)
    match s.top_n with
    | PyVal.none => throw ("Leaderboard requires top_n > 0.".toList)
    | PyVal.int n => if n ≤ 0 then throw ("Leaderboard requires top_n > 0.".toList)
    | _ => throw ("TypeError: comparison not supported for top_n".toList)
  if s.chart_type = PyVal.str ("scatter".toList) then
    if ¬ pyTruthy s.x_metric ∨ ¬ pyTruthy s.y_metric then
      throw ("Scatter requires x_metric and y_metric.".toList)
    if s.x_metric ∉ allowVals ∨ s.y_metric ∉ allowVals then
      throw ("Scatter uses unsupported metric(s).".toList)
  if s.chart_type = PyVal.str ("compare".toList) then
    match s.teams with
    | PyVal.none =>
      throw ("Compare requires at least two team abbreviations in 'teams'.".toList)
    | PyVal.str cs =>
      if cs.length < 2 then
        throw ("Compare requires at least two team abbreviations in 'teams'.".toList)
    | PyVal.int n =>
      if n = 0 then
        throw ("Compare requires at least two team abbreviations in 'teams'.".toList)
      else
        throw ("TypeError: object of type 'int' has no len()".toList)
    | PyVal.strlist l =>
      if l.length < 2 then
        throw ("Compare requires at least two team abbreviations in 'teams'.".toList)
  return ()

/-! ## src/query_engine.py : explanation builder -/

/-- Python iteration over `spec.teams or []` inside a join/list comprehension:
a list of strings yields its elements; a string yields its characters as
one-character strings; falsy values yield nothing.  (Iterating a nonzero int
would raise TypeError in Python; validation rejects such specs first.) -/
def pyIterStrs : PyVal → List Str
  | PyVal.strlist l => l
  | PyVal.str cs => cs.map (fun c => [c])
  | _ => []

/-- src/query_engine.py lines 131-158 (`_build_explanation`). -/
def build_explanation (s : ChartSpec) : Str :=
  let base :=
    [ "Chart type: ".toList ++ pyToString s.chart_type,
      "Entity: ".toList ++ pyToString s.entity,
      "Window: ".toList ++ pyToString s.window ]
  let lb :=
    if s.chart_type = PyVal.str ("leaderboard".toList) then
      [ "Metric: ".toList ++ pyToString s.metric ++ " (sorted ".toList ++
          pyToString s.order ++ ", top_n=".toList ++ pyToString s.top_n ++ ")".toList ]
      ++ (if s.metric = PyVal.str ("NET_RTG".toList) then
            [ "NET_RTG = ORtg - DRtg".toList ] else [])
      ++ (if s.metric ∈ ratingVals then
            [ "Ratings computed from opponent-paired games using estimated possessions.".toList ]
          else
            [ "Metric computed from aggregated team box score totals over the window.".toList ])
    else []
  let sc :=
    if s.chart_type = PyVal.str ("scatter".toList) then
      [ "X: ".toList ++ pyToString s.x_metric ++ ", Y: ".toList ++ pyToString s.y_metric,
        "Each point is one team aggregated over the selected window.".toList ]
    else []
  let cm :=
    if s.chart_type = PyVal.str ("compare".toList) then
      [ "Teams: ".toList ++ List.intercalate (", ".toList) (pyIterStrs s.teams),
        "Comparison uses the same metric definitions as leaderboards.".toList ]
    else []
  List.intercalate (" | ".toList) (base ++ lb ++ sc ++ cm)

/-! ## The metrics layer

The module `metrics` imported by src/query_engine.py (functions
`aggregate_team_offense`, `aggregate_team_with_defense`,
`aggregate_team_complete` and the window filter they apply) is not part of the
repository snapshot, so it is modelled from the specification here. -/

/-- Modelled from the spec: the TeamGameRow column set of §3/§6 of the
specification, restricted to the columns the modelled aggregations read
(WL/STL/BLK/PF/DREB/FG3A/FGM-independent columns are not needed by any
claim).  Counting stats are embedded as rationals; dates as integers
(only their order matters). -/
structure TeamGameRow where
  GAME_ID : Int
  GAME_DATE : Int
  TEAM_ABBREVIATION : Str
  FGM : ℚ
  FGA : ℚ
  FG3M : ℚ
  FTA : ℚ
  OREB : ℚ
  AST : ℚ
  TOV : ℚ
  PTS : ℚ
deriving DecidableEq, Repr

/-- Modelled from the spec (§4.1): possessions_est = FGA - OREB + TOV + 0.44*FTA. -/
def possessions_est (r : TeamGameRow) : ℚ :=
  r.FGA - r.OREB + r.TOV + (44 / 100) * r.FTA

/-- Game-count of each window bucket; SEASON has none. -/
def windowN (w : Str) : Option Nat :=
  if w = "LAST_5".toList then some 5
  else if w = "LAST_10".toList then some 10
  else if w = "LAST_20".toList then some 20
  else none

/-- Modelled from the spec (§4.2, Window Filter): a team's rows in the window,
its rows sorted by date descending with the first N kept (all rows for
SEASON).  Each team's window depends only on its own games. -/
def windowRows (w : Str) (rows : List TeamGameRow) (team : Str) : List TeamGameRow :=
  let tr := rows.filter (fun r => r.TEAM_ABBREVIATION = team)
  match windowN w with
  | Option.none => tr
  | some n => (tr.mergeSort (fun a b => decide (b.GAME_DATE ≤ a.GAME_DATE))).take n

/-- One row of a team aggregate table: the team abbreviation and the nine
metric columns, `Option.none` embedding a missing value (NaN). -/
structure AggRow where
  TEAM_ABBREVIATION : Str
  ORtg : Option ℚ
  DRtg : Option ℚ
  NET_RTG : Option ℚ
  PACE : Option ℚ
  PPG : Option ℚ
  eFG : Option ℚ
  TS : Option ℚ
  AST_RATE : Option ℚ
  TOV_RATE : Option ℚ
deriving DecidableEq, Repr

/-- Division that yields a missing value instead of an exception on a zero
denominator (spec §4.1 edge case policy). -/
def safeDiv (a b : ℚ) : Option ℚ := if b = 0 then Option.none else some (a / b)

/-- Column lookup on an aggregate row by metric name. -/
def getCol (r : AggRow) (c : Str) : Option ℚ :=
  if c = "ORtg".toList then r.ORtg
  else if c = "DRtg".toList then r.DRtg
  else if c = "NET_RTG".toList then r.NET_RTG
  else if c = "PACE".toList then r.PACE
  else if c = "PPG".toList then r.PPG
  else if c = "eFG".toList then r.eFG
  else if c = "TS".toList then r.TS
  else if c = "AST_RATE".toList then r.AST_RATE
  else if c = "TOV_RATE".toList then r.TOV_RATE
  else Option.none

/-- Modelled from the spec (§4.1): the aggregate row of one team over its
windowed games.  Ratios are totals-based; ORtg/DRtg use opponent-paired
possessions (the opponent of a game row is the row of the same GAME_ID with a
different team); PACE and PPG are per-game averages; every division by zero is
a missing value. -/
def aggRowFor (rows : List TeamGameRow) (w : Str) (team : Str) : AggRow :=
  let g := windowRows w rows team
  let games : ℚ := g.length
  let sPTS := (g.map (fun r => r.PTS)).sum
  let sFGM := (g.map (fun r => r.FGM)).sum
  let sFGA := (g.map (fun r => r.FGA)).sum
  let sFG3M := (g.map (fun r => r.FG3M)).sum
  let sFTA := (g.map (fun r => r.FTA)).sum
  let sAST := (g.map (fun r => r.AST)).sum
  let sTOV := (g.map (fun r => r.TOV)).sum
  let sPoss := (g.map possessions_est).sum
  let oppPts := (g.map (fun r =>
    ((rows.filter (fun o => o.GAME_ID = r.GAME_ID ∧ o.TEAM_ABBREVIATION ≠ r.TEAM_ABBREVIATION)).map
      (fun o => o.PTS)).sum)).sum
  let ortg := (safeDiv sPTS sPoss).map (fun q => q * 100)
  let drtg := (safeDiv oppPts sPoss).map (fun q => q * 100)
  { TEAM_ABBREVIATION := team
    ORtg := ortg
    DRtg := drtg
    NET_RTG := match ortg, drtg with
      | some o, some d => some (o - d)
      | _, _ => Option.none
    PACE := safeDiv sPoss games
    PPG := safeDiv sPTS games
    eFG := safeDiv (sFGM + sFG3M / 2) sFGA
    TS := safeDiv sPTS (2 * (sFGA + (44 / 100) * sFTA))
    AST_RATE := safeDiv sAST sPoss
    TOV_RATE := safeDiv sTOV sPoss }

/-- The distinct team abbreviations present in the row collection (grouping is
driven by the rows present, spec §4.1; the spec imposes no row order on the
aggregate, and `List.dedup` fixes one deterministic order). -/
def teamsOf (rows : List TeamGameRow) : List Str :=
  (rows.map (fun r => r.TEAM_ABBREVIATION)).dedup

/-- Modelled from the spec: `aggregate_team_complete(df, window)` of the
missing `metrics` module — one aggregate row per team having at least one game
in the window (§4.1: offense, defense/pace and shooting columns together). -/
def aggregate_team_complete (rows : List TeamGameRow) (w : Str) : List AggRow :=
  (teamsOf rows).map (aggRowFor rows w)

/-- Modelled from the spec: `aggregate_team_with_defense(df, window)` of the
missing `metrics` module.  Per §4.1 the three aggregation variants produce
numerically identical team totals and differ only in which derived columns are
attached; the offense+defense variant carries all columns any claim reads, so
its model coincides with the complete one. -/
def aggregate_team_with_defense (rows : List TeamGameRow) (w : Str) : List AggRow :=
  (teamsOf rows).map (aggRowFor rows w)

/-! ## src/query_engine.py : run_query and spec_from_dict -/

/-- The sort key order of `base.sort_values(metric, ascending=...)`: values
compare numerically in the requested direction and a missing value (NaN)
sorts after every present value in either direction (pandas default
na_position="last"). -/
def leKey (asc : Bool) (x y : Option ℚ) : Bool :=
  match x, y with
  | some a, some b => if asc then decide (a ≤ b) else decide (b ≤ a)
  | some _, Option.none => true
  | Option.none, some _ => false
  | Option.none, Option.none => true

/-- pandas `df.sort_values(c, ascending=asc)` on an aggregate table. -/
def sort_values (base : List AggRow) (c : Str) (asc : Bool) : List AggRow :=
  base.mergeSort (fun a b => leKey asc (getCol a c) (getCol b c))

/-- pandas `df.head(n)`: the first n rows; for negative n all but the last
|n| rows. -/
def pyHead (n : Int) (l : List AggRow) : List AggRow :=
  if 0 ≤ n then l.take n.toNat else l.take (l.length - n.natAbs)

/-- The string carried by a `PyVal.str`; validated specs only reach the
points of use with a string there, other values are rendered via str(). -/
def pyStrVal : PyVal → Str
  | PyVal.str s => s
  | v => pyToString v

/-- The int carried by a `PyVal.int` (run_query reads top_n only after
validation guaranteed an int there). -/
def topNVal : PyVal → Int
  | PyVal.int n => n
  | _ => 0

/-- src/query_engine.py lines 161-201 (`run_query`). -/
def run_query (rows : List TeamGameRow) (s : ChartSpec) : Except Str (List AggRow × Str) := do
  validate_spec s
  let explanation := build_explanation s
  let w := pyStrVal s.window
  let base ←
    if s.chart_type = PyVal.str ("scatter".toList) then
      pure (aggregate_team_complete rows w)
    else if s.chart_type = PyVal.str ("compare".toList) then
      pure (aggregate_team_complete rows w)
    else if s.chart_type = PyVal.str ("leaderboard".toList) then
      if s.metric ∈ ratingVals then
        pure (aggregate_team_with_defense rows w)
      else
        pure (aggregate_team_complete rows w)
    else
      throw ("Unhandled chart_type: ".toList ++ pyToString s.chart_type)
  if s.chart_type = PyVal.str ("leaderboard".toList) then
    let ascending := s.order = PyVal.str ("asc".toList)
    return (pyHead (topNVal s.top_n) (sort_values base (pyStrVal s.metric) ascending),
            explanation)
  if s.chart_type = PyVal.str ("scatter".toList) then
    return (base, explanation)
  if s.chart_type = PyVal.str ("compare".toList) then
    let teams := (pyIterStrs s.teams).map pyUpper
    return (base.filter (fun r => r.TEAM_ABBREVIATION ∈ teams), explanation)
  throw ("Unhandled chart_type: ".toList ++ pyToString s.chart_type)

/-- Python int(x) applied to a loosely-typed top_n value. -/
def pyIntCoerce : PyVal → Except Str Int
  | PyVal.int n => Except.ok n
  | PyVal.str s =>
    match pyIntParse s with
    | some n => Except.ok n
    | Option.none => Except.error ("ValueError: invalid literal for int()".toList)
  | PyVal.none => Except.error ("TypeError: int() argument cannot be None".toList)
  | PyVal.strlist _ => Except.error ("TypeError: int() argument cannot be a list".toList)

/-- src/query_engine.py lines 204-240 (`spec_from_dict`); the DEFAULTS table
of lines 24-31 is inlined at its points of use.  Fields the source does not
pass to the ChartSpec constructor get the dataclass defaults (None, and
"desc" for order). -/
def spec_from_dict (d : PyDict) : Except Str ChartSpec := do
  let chart_type := pyGet d ("chart_type".toList)
  if chart_type ∉ [PyVal.str ("leaderboard".toList), PyVal.str ("scatter".toList),
      PyVal.str ("compare".toList)] then
    throw ("chart_type must be one of: leaderboard, scatter, compare".toList)
  let entity := pyGetD d ("entity".toList) (PyVal.str ("team".toList))
  let window ←
    match normalize_window (pyGetD d ("window".toList) (PyVal.str ("SEASON".toList))) with
    | Except.ok w => pure (PyVal.str w)
    | Except.error e => throw e
  let metric := pyGetD d ("metric".toList) (PyVal.str ("NET_RTG".toList))
  let top_n := pyGetD d ("top_n".toList) (PyVal.int 10)
  let order :=
    if (pyFind ("order".toList) d).isSome then pyGet d ("order".toList)
    else if metric = PyVal.str ("DRtg".toList) then PyVal.str ("asc".toList)
    else PyVal.str ("desc".toList)
  let x_metric := pyGetD d ("x_metric".toList) (PyVal.str ("ORtg".toList))
  let y_metric := pyGetD d ("y_metric".toList) (PyVal.str ("DRtg".toList))
  let teams := pyGet d ("teams".toList)
  if chart_type = PyVal.str ("leaderboard".toList) then
    let tn ← pyIntCoerce top_n
    return ChartSpec.mk chart_type entity window metric (PyVal.int tn) order
      PyVal.none PyVal.none PyVal.none
  if chart_type = PyVal.str ("scatter".toList) then
    return ChartSpec.mk chart_type entity window PyVal.none PyVal.none
      (PyVal.str ("desc".toList)) x_metric y_metric PyVal.none
  if chart_type = PyVal.str ("compare".toList) then
    return ChartSpec.mk chart_type entity window PyVal.none PyVal.none
      (PyVal.str ("desc".toList)) PyVal.none PyVal.none teams
  throw ("Invalid chart_type.".toList)

/-! ## Claim theorems -/

/-- A ChartSpec whose chart_type is the unsupported string "pie". -/
def pieSpec : ChartSpec :=
  ChartSpec.mk (PyVal.str ("pie".toList)) (PyVal.str ("team".toList))
    (PyVal.str ("SEASON".toList)) PyVal.none PyVal.none (PyVal.str ("desc".toList))
    PyVal.none PyVal.none PyVal.none

/-- C1: the claim says validate_spec rejects every ChartSpec whose chart_type
is outside {leaderboard, scatter, compare}, making the "Unhandled chart_type"
branches of run_query unreachable after a successful validation.  The code
does not check chart_type in validate_spec: the spec with chart_type "pie"
passes validation and run_query then reaches the unhandled branch. -/
theorem validate_spec_passes_unknown_chart_type :
    validate_spec pieSpec = Except.ok () ∧
      run_query [] pieSpec = Except.error ("Unhandled chart_type: pie".toList) :=
  ⟨rfl, rfl⟩

/-- A leaderboard query dictionary asking for DRtg with no "order" key. -/
def drtgDict : PyDict :=
  [ ("chart_type".toList, PyVal.str ("leaderboard".toList)),
    ("metric".toList, PyVal.str ("DRtg".toList)) ]

/-- C2 counterexample: for the DRtg leaderboard dictionary without an "order"
key, spec_from_dict yields order "asc", not the claimed uniform "desc". -/
theorem spec_from_dict_drtg_order_asc :
    (spec_from_dict drtgDict).map ChartSpec.order = Except.ok (PyVal.str ("asc".toList)) ∧
      PyVal.str ("asc".toList) ≠ PyVal.str ("desc".toList) :=
  ⟨rfl, by decide⟩

@[simp] theorem errorBindE {α β : Type} (e : Str) (f : α → Except Str β) :
    (Except.error e : Except Str α) >>= f = Except.error e := rfl

@[simp] theorem okBindE {α β : Type} (a : α) (f : α → Except Str β) :
    (Except.ok a : Except Str α) >>= f = f a := rfl

@[simp] theorem mapErrorE {α β : Type} (e : Str) (f : α → β) :
    f <$> (Except.error e : Except Str α) = Except.error e := rfl

@[simp] theorem mapOkE {α β : Type} (a : α) (f : α → β) :
    f <$> (Except.ok a : Except Str α) = Except.ok (f a) := rfl

@[simp] theorem throwEqError {α : Type} (e : Str) : (throw e : Except Str α) = Except.error e := rfl

@[simp] theorem pureEqOk {α : Type} (a : α) : (pure a : Except Str α) = Except.ok a := rfl

/-- C2 amended: when the input dictionary has no "order" key and requests a
leaderboard, the resulting ChartSpec's order is "desc" for every metric value
except the string "DRtg", for which it is "asc" (the code special-cases the
DRtg metric when defaulting the order). -/
theorem spec_from_dict_default_order (d : PyDict) (s : ChartSpec)
    (hOrder : pyFind ("order".toList) d = Option.none)
    (hCt : pyGet d ("chart_type".toList) = PyVal.str ("leaderboard".toList))
    (hOk : spec_from_dict d = Except.ok s) :
    s.order =
      if pyGetD d ("metric".toList) (PyVal.str ("NET_RTG".toList)) = PyVal.str ("DRtg".toList)
      then PyVal.str ("asc".toList) else PyVal.str ("desc".toList) := by
  simp at hOrder hCt
  cases hw : normalize_window (pyGetD d ("window".toList) (PyVal.str ("SEASON".toList))) with
  | error e => simp at hw; simp [spec_from_dict, hCt, hw] at hOk
  | ok w =>
    simp at hw
    cases hic : pyIntCoerce (pyGetD d ("top_n".toList) (PyVal.int 10)) with
    | error e => simp at hic; simp [spec_from_dict, hCt, hw, hOrder, hic] at hOk
    | ok tn =>
      simp at hic
      simp [spec_from_dict, hCt, hw, hOrder, hic] at hOk
      rw [← hOk]
      simp

/-- A leaderboard query dictionary asking for PPG with no "order" key. -/
def ppgDict : PyDict :=
  [ ("chart_type".toList, PyVal.str ("leaderboard".toList)),
    ("metric".toList, PyVal.str ("PPG".toList)) ]

/-- The ChartSpec spec_from_dict produces for `ppgDict`. -/
def ppgSpec : ChartSpec :=
  ChartSpec.mk (PyVal.str ("leaderboard".toList)) (PyVal.str ("team".toList))
    (PyVal.str ("SEASON".toList)) (PyVal.str ("PPG".toList)) (PyVal.int 10)
    (PyVal.str ("desc".toList)) PyVal.none PyVal.none PyVal.none

/-- Witness for the C2 amended theorem at a concrete dictionary. -/
theorem spec_from_dict_default_order_witness :
    (spec_from_dict ppgDict).map ChartSpec.order = Except.ok (PyVal.str ("desc".toList)) := by
  have h2 : ppgSpec.order = PyVal.str ("desc".toList) :=
    (spec_from_dict_default_order ppgDict ppgSpec rfl rfl rfl).trans (by decide)
  exact congrArg Except.ok h2

/-- C7: run_query is deterministic — the embedding of the Python function is a
pure function of the row collection and the spec (the source touches no global
mutable state and uses no randomness), so two invocations on equal inputs give
equal (result table, explanation) pairs. -/
theorem run_query_deterministic (rows : List TeamGameRow) (s : ChartSpec) :
    run_query rows s = run_query rows s := rfl

/-- C10: normalize_window maps None to SEASON without raising, and therefore a
query dictionary carrying an explicit null window value gets the SEASON
default from spec_from_dict instead of being rejected. -/
theorem normalize_window_none_is_season :
    normalize_window PyVal.none = Except.ok ("SEASON".toList) ∧
    ∀ (d : PyDict) (s : ChartSpec), pyFind ("window".toList) d = some PyVal.none →
      spec_from_dict d = Except.ok s → s.window = PyVal.str ("SEASON".toList) := by
  refine ⟨rfl, ?_⟩
  intro d s hfind hOk
  simp at hfind
  have hget : pyGetD d ("window".toList) (PyVal.str ("SEASON".toList)) = PyVal.none := by
    simp [pyGetD, hfind]
  simp at hget
  cases hic : pyIntCoerce (pyGetD d ("top_n".toList) (PyVal.int 10)) with
  | error e =>
    simp at hic
    simp [spec_from_dict, hget, hic, normalize_window] at hOk
    split at hOk
    · cases hOk
    · split at hOk
      · cases hOk
      · split at hOk
        · cases hOk; rfl
        · split at hOk
          · cases hOk; rfl
          · cases hOk
  | ok tn =>
    simp at hic
    simp [spec_from_dict, hget, hic, normalize_window] at hOk
    split at hOk
    · cases hOk
    · split at hOk
      · cases hOk; rfl
      · split at hOk
        · cases hOk; rfl
        · split at hOk
          · cases hOk; rfl
          · cases hOk

/-- A scatter query dictionary whose "window" key holds an explicit null. -/
def nullWinDict : PyDict :=
  [ ("chart_type".toList, PyVal.str ("scatter".toList)), ("window".toList, PyVal.none) ]

/-- The ChartSpec spec_from_dict produces for `nullWinDict`. -/
def nullWinSpec : ChartSpec :=
  ChartSpec.mk (PyVal.str ("scatter".toList)) (PyVal.str ("team".toList))
    (PyVal.str ("SEASON".toList)) PyVal.none PyVal.none (PyVal.str ("desc".toList))
    (PyVal.str ("ORtg".toList)) (PyVal.str ("DRtg".toList)) PyVal.none

/-- Witness for C10 at a concrete dictionary with a null window. -/
theorem normalize_window_none_is_season_witness :
    (spec_from_dict nullWinDict).map ChartSpec.window = Except.ok (PyVal.str ("SEASON".toList)) := by
  have h2 : nullWinSpec.window = PyVal.str ("SEASON".toList) :=
    normalize_window_none_is_season.2 nullWinDict nullWinSpec rfl rfl
  exact congrArg Except.ok h2

/-- C3: for an otherwise-valid leaderboard or scatter ChartSpec, validate_spec
accepts exactly the metric strings in the nine-element allow-list
TEAM_METRICS_ALLOWLIST (for scatter, both axis metrics must be in the list);
any metric string outside it makes validate_spec raise. -/
theorem validate_spec_metric_allowlist (spec : ChartSpec)
    (hent : spec.entity = PyVal.str ("team".toList))
    (hwin : spec.window ∈ windowVals) :
    (∀ (m : Str) (n : Int), spec.chart_type = PyVal.str ("leaderboard".toList) →
      spec.metric = PyVal.str m → spec.top_n = PyVal.int n → 0 < n →
      (validate_spec spec = Except.ok () ↔ m ∈ TEAM_METRICS_ALLOWLIST))
    ∧ (∀ (mx my : Str), spec.chart_type = PyVal.str ("scatter".toList) →
      spec.x_metric = PyVal.str mx → spec.y_metric = PyVal.str my →
      (validate_spec spec = Except.ok () ↔
        mx ∈ TEAM_METRICS_ALLOWLIST ∧ my ∈ TEAM_METRICS_ALLOWLIST)) := by
  have nonemp : ∀ x ∈ TEAM_METRICS_ALLOWLIST, x ≠ [] := by decide
  obtain ⟨ct, ent, win, met, tn, ord, xm, ym, tms⟩ := spec
  simp at hent
  subst hent
  constructor
  · intro m n hct hm htn hn
    simp at hct hm htn
    subst hct; subst hm; subst htn
    have hn' : ¬ n ≤ 0 := by omega
    have hmem : PyVal.str m ∈ allowVals ↔ m ∈ TEAM_METRICS_ALLOWLIST := by
      simp [allowVals]
    by_cases hin : m ∈ TEAM_METRICS_ALLOWLIST
    · have hm0 : m ≠ [] := nonemp m hin
      simp [validate_spec, hwin, pyTruthy, hm0, hmem, hin, hn']
    · by_cases hm0 : m = []
      · subst hm0
        simp [validate_spec, hwin, pyTruthy, hin]
      · simp [validate_spec, hwin, pyTruthy, hm0, hmem, hin]
  · intro mx my hct hx hy
    simp at hct hx hy
    subst hct; subst hx; subst hy
    have hmemx : PyVal.str mx ∈ allowVals ↔ mx ∈ TEAM_METRICS_ALLOWLIST := by
      simp [allowVals]
    have hmemy : PyVal.str my ∈ allowVals ↔ my ∈ TEAM_METRICS_ALLOWLIST := by
      simp [allowVals]
    by_cases hinx : mx ∈ TEAM_METRICS_ALLOWLIST
    · have hx0 : mx ≠ [] := nonemp mx hinx
      by_cases hiny : my ∈ TEAM_METRICS_ALLOWLIST
      · have hy0 : my ≠ [] := nonemp my hiny
        simp [validate_spec, hwin, pyTruthy, hx0, hy0, hmemx, hmemy, hinx, hiny]
      · by_cases hy0 : my = []
        · subst hy0
          simp [validate_spec, hwin, pyTruthy, hx0, hiny]
        · simp [validate_spec, hwin, pyTruthy, hx0, hy0, hmemx, hmemy, hinx, hiny]
    · by_cases hx0 : mx = []
      · subst hx0
        simp [validate_spec, hwin, pyTruthy, hinx]
      · simp [validate_spec, hwin, pyTruthy, hx0, hmemx, hinx]
        split <;> simp

/-- A leaderboard ChartSpec requesting the allow-listed metric ORtg. -/
def ortgLbSpec : ChartSpec :=
  ChartSpec.mk (PyVal.str ("leaderboard".toList)) (PyVal.str ("team".toList))
    (PyVal.str ("LAST_10".toList)) (PyVal.str ("ORtg".toList)) (PyVal.int 5)
    (PyVal.str ("desc".toList)) PyVal.none PyVal.none PyVal.none

/-- Witness for C3 at a concrete leaderboard spec. -/
theorem validate_spec_metric_allowlist_witness :
    validate_spec ortgLbSpec = Except.ok () :=
  ((validate_spec_metric_allowlist ortgLbSpec rfl (by decide)).1
    ("ORtg".toList) 5 rfl rfl rfl (by decide)).mpr (by decide)

@[simp] theorem aggRowFor_team (rows : List TeamGameRow) (w : Str) (t : Str) :
    (aggRowFor rows w t).TEAM_ABBREVIATION = t := rfl

theorem aggregate_team_complete_teams (rows : List TeamGameRow) (w : Str) :
    (aggregate_team_complete rows w).map AggRow.TEAM_ABBREVIATION = teamsOf rows := by
  simp [aggregate_team_complete, List.map_map]
  have h : AggRow.TEAM_ABBREVIATION ∘ aggRowFor rows w = id := funext (fun t => rfl)
  rw [h, List.map_id]

theorem aggregate_team_with_defense_teams (rows : List TeamGameRow) (w : Str) :
    (aggregate_team_with_defense rows w).map AggRow.TEAM_ABBREVIATION = teamsOf rows := by
  simp [aggregate_team_with_defense, List.map_map]
  have h : AggRow.TEAM_ABBREVIATION ∘ aggRowFor rows w = id := funext (fun t => rfl)
  rw [h, List.map_id]

theorem teamsOf_nodup (rows : List TeamGameRow) : (teamsOf rows).Nodup :=
  List.nodup_dedup _

theorem mem_teamsOf {rows : List TeamGameRow} {t : Str} :
    t ∈ teamsOf rows ↔ t ∈ rows.map (fun r => r.TEAM_ABBREVIATION) :=
  List.mem_dedup

/-- A compare ChartSpec for a window value and a list of team abbreviations. -/
def cmpSpec (win : PyVal) (l : List Str) : ChartSpec :=
  ChartSpec.mk (PyVal.str ("compare".toList)) (PyVal.str ("team".toList)) win
    PyVal.none PyVal.none (PyVal.str ("desc".toList)) PyVal.none PyVal.none
    (PyVal.strlist l)

/-- Evaluation of run_query on a valid compare spec: the complete aggregate
filtered to the uppercased requested abbreviations, plus the explanation. -/
theorem run_query_compare_eval (rows : List TeamGameRow) (win : PyVal) (l : List Str)
    (hwin : win ∈ windowVals) (hlen : 2 ≤ l.length) :
    run_query rows (cmpSpec win l) = Except.ok
      ((aggregate_team_complete rows (pyStrVal win)).filter
         (fun r => decide (r.TEAM_ABBREVIATION ∈ l.map pyUpper)),
       build_explanation (cmpSpec win l)) := by
  have hlen' : ¬ l.length < 2 := by omega
  have hval : validate_spec (cmpSpec win l) = Except.ok () := by
    simp [validate_spec, cmpSpec, hwin, hlen']
  simp only [cmpSpec] at hval
  simp at hval
  simp [run_query, hval, cmpSpec, pyIterStrs]

/-- C9: a valid compare spec whose requested teams are all absent from the
data yields a zero-row result table (and an explanation), not an error. -/
theorem run_query_compare_absent_empty (rows : List TeamGameRow) (win : PyVal)
    (l : List Str) (hwin : win ∈ windowVals) (hlen : 2 ≤ l.length)
    (habs : ∀ t ∈ l, pyUpper t ∉ rows.map (fun r => r.TEAM_ABBREVIATION)) :
    run_query rows (cmpSpec win l) = Except.ok ([], build_explanation (cmpSpec win l)) := by
  rw [run_query_compare_eval rows win l hwin hlen]
  have hfil : (aggregate_team_complete rows (pyStrVal win)).filter
      (fun r => decide (r.TEAM_ABBREVIATION ∈ l.map pyUpper)) = [] := by
    rw [List.filter_eq_nil_iff]
    intro r hr
    simp only [decide_eq_true_eq, List.mem_map]
    rintro ⟨t, ht, hEq⟩
    have hrT : r.TEAM_ABBREVIATION ∈
        (aggregate_team_complete rows (pyStrVal win)).map AggRow.TEAM_ABBREVIATION :=
      List.mem_map_of_mem _ hr
    rw [aggregate_team_complete_teams] at hrT
    exact habs t ht (hEq ▸ (mem_teamsOf.mp hrT))
  rw [hfil]

/-- C5: a valid compare spec whose requested teams (distinct after
uppercasing) are all present in the data yields exactly one result row per
requested team: the result's team set equals the requested uppercased set. -/
theorem run_query_compare_exact (rows : List TeamGameRow) (win : PyVal) (l : List Str)
    (hwin : win ∈ windowVals) (hlen : 2 ≤ l.length)
    (hnd : (l.map pyUpper).Nodup)
    (hpres : ∀ t ∈ l, pyUpper t ∈ rows.map (fun r => r.TEAM_ABBREVIATION)) :
    ∃ res expl, run_query rows (cmpSpec win l) = Except.ok (res, expl) ∧
      res.length = l.length ∧
      (∀ a, a ∈ res.map AggRow.TEAM_ABBREVIATION ↔ a ∈ l.map pyUpper) := by
  have hmapres : (((aggregate_team_complete rows (pyStrVal win)).filter
      (fun r => decide (r.TEAM_ABBREVIATION ∈ l.map pyUpper))).map AggRow.TEAM_ABBREVIATION)
      = (teamsOf rows).filter (fun a => decide (a ∈ l.map pyUpper)) := by
    rw [← aggregate_team_complete_teams rows (pyStrVal win)]
    exact (@List.filter_map _ _ (fun (a : Str) => decide (a ∈ l.map pyUpper))
      AggRow.TEAM_ABBREVIATION (aggregate_team_complete rows (pyStrVal win))).symm
  have hmem : ∀ a, a ∈ (teamsOf rows).filter (fun a => decide (a ∈ l.map pyUpper)) ↔
      a ∈ l.map pyUpper := by
    intro a
    rw [List.mem_filter]
    constructor
    · rintro ⟨-, hp⟩
      simpa using hp
    · intro hU
      refine ⟨?_, by simpa using hU⟩
      rcases List.mem_map.mp hU with ⟨t, ht, rfl⟩
      exact mem_teamsOf.mpr (hpres t ht)
  refine ⟨_, _, run_query_compare_eval rows win l hwin hlen, ?_, ?_⟩
  · calc ((aggregate_team_complete rows (pyStrVal win)).filter
        (fun r => decide (r.TEAM_ABBREVIATION ∈ l.map pyUpper))).length
        = (((aggregate_team_complete rows (pyStrVal win)).filter
            (fun r => decide (r.TEAM_ABBREVIATION ∈ l.map pyUpper))).map
              AggRow.TEAM_ABBREVIATION).length := (List.length_map _ _).symm
      _ = ((teamsOf rows).filter (fun a => decide (a ∈ l.map pyUpper))).length := by
          rw [hmapres]
      _ = (l.map pyUpper).length :=
          ((List.perm_ext_iff_of_nodup ((teamsOf_nodup rows).filter _) hnd).mpr hmem).length_eq
      _ = l.length := List.length_map _ _
  · intro a
    rw [hmapres]
    exact hmem a

/-- Two opposing team-game rows of one game (GAME_ID 1). -/
def witnessRows : List TeamGameRow :=
  [ TeamGameRow.mk 1 1 ("BOS".toList) 40 90 10 20 10 25 15 110,
    TeamGameRow.mk 1 1 ("MIA".toList) 38 88 9 18 11 24 14 105 ]

/-- Witness for C5: both requested teams (queried in mixed case) are in the
data; the result has exactly two rows carrying exactly those teams. -/
theorem run_query_compare_exact_witness :
    ∃ res expl,
      run_query witnessRows (cmpSpec (PyVal.str ("SEASON".toList))
        [ "bos".toList, "MIA".toList ]) = Except.ok (res, expl) ∧
      res.length = ([ "bos".toList, "MIA".toList ] : List Str).length ∧
      (∀ a, a ∈ res.map AggRow.TEAM_ABBREVIATION ↔
        a ∈ ([ "bos".toList, "MIA".toList ] : List Str).map pyUpper) :=
  run_query_compare_exact witnessRows (PyVal.str ("SEASON".toList))
    [ "bos".toList, "MIA".toList ] (by decide) (by decide) (by decide) (by decide)

/-- Witness for C9: both requested teams are absent; the result is empty. -/
theorem run_query_compare_absent_empty_witness :
    run_query witnessRows (cmpSpec (PyVal.str ("LAST_5".toList))
        [ "lal".toList, "GSW".toList ]) =
      Except.ok ([], build_explanation (cmpSpec (PyVal.str ("LAST_5".toList))
        [ "lal".toList, "GSW".toList ])) :=
  run_query_compare_absent_empty witnessRows (PyVal.str ("LAST_5".toList))
    [ "lal".toList, "GSW".toList ] (by decide) (by decide) (by decide)

/-- The teams having at least one game in the requested window. -/
def teamsWithGameInWindow (rows : List TeamGameRow) (w : Str) : List Str :=
  (teamsOf rows).filter (fun t => decide (windowRows w rows t ≠ []))

/-- A leaderboard ChartSpec. -/
def lbSpec (win : PyVal) (met : PyVal) (ord : PyVal) (n : Int) : ChartSpec :=
  ChartSpec.mk (PyVal.str ("leaderboard".toList)) (PyVal.str ("team".toList)) win met
    (PyVal.int n) ord PyVal.none PyVal.none PyVal.none

theorem windowRows_ne_nil (w : Str) (rows : List TeamGameRow) (t : Str)
    (ht : t ∈ teamsOf rows)
    (hw : windowN w = Option.none ∨ ∃ k, windowN w = some k ∧ 0 < k) :
    windowRows w rows t ≠ [] := by
  have htr : rows.filter (fun r => decide (r.TEAM_ABBREVIATION = t)) ≠ [] := by
    rcases List.mem_map.mp (mem_teamsOf.mp ht) with ⟨r, hr, hrt⟩
    intro hnil
    rw [List.filter_eq_nil_iff] at hnil
    exact hnil r hr (by simp [hrt])
  unfold windowRows
  rcases hw with hw | ⟨k, hw, hk⟩
  · rw [hw]
    simpa using htr
  · rw [hw]
    intro hnil
    have hlen := congrArg List.length hnil
    rw [List.length_take, List.length_mergeSort] at hlen
    simp at hlen
    rcases hlen with h | h
    · omega
    · exact htr (List.filter_eq_nil_iff.mpr (by simpa using h))

/-- In each of the four supported windows every team present in the row
collection has at least one game in its own window. -/
theorem teamsWithGameInWindow_eq (rows : List TeamGameRow) (w : Str)
    (hw : windowN w = Option.none ∨ ∃ k, windowN w = some k ∧ 0 < k) :
    teamsWithGameInWindow rows w = teamsOf rows := by
  unfold teamsWithGameInWindow
  rw [List.filter_eq_self]
  intro a ha
  simpa using windowRows_ne_nil w rows a ha hw

/-- C6: for a valid leaderboard spec, the result length is the minimum of
top_n and the number of teams with at least one game in the window. -/
theorem run_query_leaderboard_length (rows : List TeamGameRow) (win ord : PyVal)
    (m : Str) (n : Int) (hwin : win ∈ windowVals)
    (hmem : m ∈ TEAM_METRICS_ALLOWLIST) (hn : 0 < n) :
    ∃ res expl, run_query rows (lbSpec win (PyVal.str m) ord n) = Except.ok (res, expl) ∧
      res.length = min n.toNat (teamsWithGameInWindow rows (pyStrVal win)).length := by
  have hwN : windowN (pyStrVal win) = Option.none ∨
      ∃ k, windowN (pyStrVal win) = some k ∧ 0 < k := by
    have hwin' := hwin
    simp [windowVals] at hwin'
    rcases hwin' with h | h | h | h <;> subst h
    · exact Or.inl (by decide)
    · exact Or.inr ⟨5, by decide, by decide⟩
    · exact Or.inr ⟨10, by decide, by decide⟩
    · exact Or.inr ⟨20, by decide, by decide⟩
  have hm0 : m ≠ [] := (by decide : ∀ x ∈ TEAM_METRICS_ALLOWLIST, x ≠ []) m hmem
  have hmemAllow : PyVal.str m ∈ allowVals := by
    simp [allowVals]
    exact hmem
  have hn' : ¬ n ≤ 0 := by omega
  have hn0 : 0 ≤ n := le_of_lt hn
  have hval : validate_spec (lbSpec win (PyVal.str m) ord n) = Except.ok () := by
    simp [validate_spec, lbSpec, hwin, pyTruthy, hm0, hmemAllow, hn']
  simp only [lbSpec] at hval
  simp at hval
  rw [teamsWithGameInWindow_eq rows (pyStrVal win) hwN]
  by_cases hr : PyVal.str m ∈ ratingVals
  · refine ⟨pyHead n (sort_values (aggregate_team_with_defense rows (pyStrVal win)) m
        (decide (ord = PyVal.str ("asc".toList)))),
        build_explanation (lbSpec win (PyVal.str m) ord n), ?_, ?_⟩
    · simp [run_query, hval, lbSpec, hr, topNVal, pyStrVal]
    · simp [pyHead, hn0, sort_values, aggregate_team_with_defense, List.length_take]
  · refine ⟨pyHead n (sort_values (aggregate_team_complete rows (pyStrVal win)) m
        (decide (ord = PyVal.str ("asc".toList)))),
        build_explanation (lbSpec win (PyVal.str m) ord n), ?_, ?_⟩
    · simp [run_query, hval, lbSpec, hr, topNVal, pyStrVal]
    · simp [pyHead, hn0, sort_values, aggregate_team_complete, List.length_take]

/-- Witness for C6 at concrete data: two teams with one game each, top_n = 5. -/
theorem run_query_leaderboard_length_witness :
    ∃ res expl, run_query witnessRows (lbSpec (PyVal.str ("SEASON".toList))
        (PyVal.str ("PPG".toList)) (PyVal.str ("desc".toList)) 5) = Except.ok (res, expl) ∧
      res.length = min (Int.toNat 5)
        (teamsWithGameInWindow witnessRows (pyStrVal (PyVal.str ("SEASON".toList)))).length :=
  run_query_leaderboard_length witnessRows (PyVal.str ("SEASON".toList))
    (PyVal.str ("desc".toList)) ("PPG".toList) 5 (by decide) (by decide) (by decide)

theorem leKey_trans (asc : Bool) (x y z : Option ℚ) :
    leKey asc x y = true → leKey asc y z = true → leKey asc x z = true := by
  cases x <;> cases y <;> cases z <;> cases asc <;>
    simp [leKey] <;> intros <;> linarith

theorem leKey_total (asc : Bool) (x y : Option ℚ) :
    (leKey asc x y || leKey asc y x) = true := by
  cases x <;> cases y <;> cases asc <;> simp [leKey] <;> exact le_total _ _

/-- C8: in the sorted table run_query's leaderboard branch builds before the
top_n truncation, every row with a missing (NaN) value in the requested metric
column comes after every row with a present value — for ascending and
descending order alike: past any missing-valued index, all values are
missing. -/
theorem sort_values_missing_last (base : List AggRow) (c : Str) (asc : Bool)
    (i j : Nat) (hi : i < (sort_values base c asc).length)
    (hj : j < (sort_values base c asc).length) (hij : i < j)
    (hmiss : getCol ((sort_values base c asc)[i]) c = Option.none) :
    getCol ((sort_values base c asc)[j]) c = Option.none := by
  have htrans : ∀ (a b d : AggRow),
      leKey asc (getCol a c) (getCol b c) = true →
      leKey asc (getCol b c) (getCol d c) = true →
      leKey asc (getCol a c) (getCol d c) = true :=
    fun a b d => leKey_trans asc (getCol a c) (getCol b c) (getCol d c)
  have htotal : ∀ (a b : AggRow),
      (leKey asc (getCol a c) (getCol b c) || leKey asc (getCol b c) (getCol a c)) = true :=
    fun a b => leKey_total asc (getCol a c) (getCol b c)
  have hp := List.sorted_mergeSort htrans htotal base
  have hrel := List.pairwise_iff_getElem.mp hp i j hi hj hij
  cases hk : getCol ((sort_values base c asc)[j]) c with
  | none => rfl
  | some v =>
    exfalso
    have hle : leKey asc (getCol ((sort_values base c asc)[i]) c)
        (getCol ((sort_values base c asc)[j]) c) = true := hrel
    rw [hmiss, hk] at hle
    simp [leKey] at hle

/-- An aggregate row whose metric values are all missing. -/
def naRowA : AggRow :=
  AggRow.mk ("AAA".toList) Option.none Option.none Option.none Option.none
    Option.none Option.none Option.none Option.none Option.none

/-- A second aggregate row whose metric values are all missing. -/
def naRowB : AggRow :=
  AggRow.mk ("BBB".toList) Option.none Option.none Option.none Option.none
    Option.none Option.none Option.none Option.none Option.none

/-- Witness for C8 at a concrete sorted table. -/
theorem sort_values_missing_last_witness :
    getCol ((sort_values [naRowA, naRowB] ("eFG".toList) true).get
      ⟨1, by simp [sort_values]⟩) ("eFG".toList) = Option.none := by
  have h0 : 0 < (sort_values [naRowA, naRowB] ("eFG".toList) true).length := by
    simp [sort_values]
  have h1 : 1 < (sort_values [naRowA, naRowB] ("eFG".toList) true).length := by
    simp [sort_values]
  have hall : ∀ r ∈ sort_values [naRowA, naRowB] ("eFG".toList) true,
      getCol r ("eFG".toList) = Option.none := by
    intro r hr
    have hr2 : r ∈ [naRowA, naRowB] := by simpa [sort_values] using hr
    simp at hr2
    rcases hr2 with h | h <;> subst h <;> rfl
  exact sort_values_missing_last [naRowA, naRowB] ("eFG".toList) true 0 1 h0 h1
    (by omega) (hall _ (List.get_mem _ _ _))

